import Mathlib

/-!
Verification of the rxprop reactive-property library (Source/rxprop).

The development shallowly embeds the state-manipulating Python code as
executable Lean functions.  Bindings and notifiers are identified by
natural-number ids; Python sets and dict key-sets become Finset; the two
module-level dependency-context stacks (reactive.py and
reactive_property.py each define their own) become explicit List values
threaded through the operations.  Python exceptions become Except values.
-/

namespace Rxprop

/-! ## Notifier.fire (notifier.py, lines 58-66)

A notifier holds a WeakSet of bindings.  fire takes a snapshot
(list(self._bindings)), then for each binding in the snapshot invokes its
handler only if the binding is still in the live set at that moment.
Handlers are arbitrary user code and may add or remove bindings; this is
modelled by a parameter eff giving, for each invoked binding, the new
binding set.  The trace records, for each invocation, the binding set at
the moment of the call together with the invoked binding. -/

/-- Trace of handler invocations inside one call of Notifier.fire: each entry
is the live binding set at the moment of the invocation, paired with the
invoked binding. -/
abbrev FireTrace := List (Finset ℕ × ℕ)

/-- One iteration of the loop in Notifier.fire: the membership test
(binding in self._bindings) guards the handler invocation; an invocation
records a trace entry and applies the handler effect eff to the live
binding set. -/
def fireStep (eff : ℕ → Finset ℕ → Finset ℕ) (acc : Finset ℕ × FireTrace) (b : ℕ) :
    Finset ℕ × FireTrace :=
  if b ∈ acc.1 then (eff b acc.1, acc.2 ++ [(acc.1, b)]) else acc

/-- Notifier.fire: iterate over the snapshot of the binding set taken at the
start of the fire, firing each binding that is still live when reached. -/
def Notifier.fire (eff : ℕ → Finset ℕ → Finset ℕ) (snapshot : List ℕ)
    (bindings : Finset ℕ) : Finset ℕ × FireTrace :=
  snapshot.foldl (fireStep eff) (bindings, [])

lemma fireStep_pos (eff : ℕ → Finset ℕ → Finset ℕ) {cur : Finset ℕ} {a : ℕ}
    (h : a ∈ cur) (tr : FireTrace) :
    fireStep eff (cur, tr) a = (eff a cur, tr ++ [(cur, a)]) := by
  simp [fireStep, h]

lemma fireStep_neg (eff : ℕ → Finset ℕ → Finset ℕ) {cur : Finset ℕ} {a : ℕ}
    (h : a ∉ cur) (tr : FireTrace) :
    fireStep eff (cur, tr) a = (cur, tr) := by
  simp [fireStep, h]

lemma fire_trace_mem_invariant (eff : ℕ → Finset ℕ → Finset ℕ) (l : List ℕ) :
    ∀ cur tr, (∀ p ∈ tr, p.2 ∈ p.1) →
      ∀ p ∈ (l.foldl (fireStep eff) (cur, tr)).2, p.2 ∈ p.1 := by
  induction l with
  | nil => intro cur tr h p hp; exact h p hp
  | cons a t ih =>
      intro cur tr h p hp
      rw [List.foldl_cons] at hp
      by_cases hmem : a ∈ cur
      · rw [fireStep_pos eff hmem tr] at hp
        refine ih _ _ ?_ p hp
        intro q hq
        rcases List.mem_append.mp hq with hq | hq
        · exact h q hq
        · simp only [List.mem_singleton] at hq
          subst hq; exact hmem
      · rw [fireStep_neg eff hmem tr] at hp
        exact ih _ _ h p hp

lemma fire_trace_snd_subset (eff : ℕ → Finset ℕ → Finset ℕ) (l : List ℕ) :
    ∀ cur tr b, b ∈ ((l.foldl (fireStep eff) (cur, tr)).2.map Prod.snd) →
      b ∈ tr.map Prod.snd ∨ b ∈ l := by
  induction l with
  | nil => intro cur tr b hb; exact Or.inl hb
  | cons a t ih =>
      intro cur tr b hb
      rw [List.foldl_cons] at hb
      by_cases hmem : a ∈ cur
      · rw [fireStep_pos eff hmem tr] at hb
        rcases ih _ _ b hb with hb | hb
        · rw [List.map_append] at hb
          rcases List.mem_append.mp hb with hb | hb
          · exact Or.inl hb
          · simp only [List.map_cons, List.map_nil, List.mem_singleton] at hb
            exact Or.inr (by simp [hb])
        · exact Or.inr (List.mem_cons_of_mem a hb)
      · rw [fireStep_neg eff hmem tr] at hb
        rcases ih _ _ b hb with hb | hb
        · exact Or.inl hb
        · exact Or.inr (List.mem_cons_of_mem a hb)

lemma fire_count_not_mem (eff : ℕ → Finset ℕ → Finset ℕ) (l : List ℕ) :
    ∀ cur tr (b : ℕ), b ∉ l →
      ((l.foldl (fireStep eff) (cur, tr)).2.map Prod.snd).count b =
        (tr.map Prod.snd).count b := by
  induction l with
  | nil => intro cur tr b _; rfl
  | cons a t ih =>
      intro cur tr b hb
      have hba : b ≠ a := fun h => hb (h ▸ List.mem_cons_self a t)
      have hbt : b ∉ t := fun h => hb (List.mem_cons_of_mem a h)
      rw [List.foldl_cons]
      by_cases hmem : a ∈ cur
      · rw [fireStep_pos eff hmem tr, ih _ _ b hbt]
        simp [List.count_append, hba]
      · rw [fireStep_neg eff hmem tr]
        exact ih _ _ b hbt

lemma fire_count_mem (eff : ℕ → Finset ℕ → Finset ℕ) (b : ℕ)
    (hpres : ∀ c t, b ∈ t → b ∈ eff c t) (l : List ℕ) :
    ∀ cur tr, l.Nodup → b ∈ l → b ∈ cur →
      ((l.foldl (fireStep eff) (cur, tr)).2.map Prod.snd).count b =
        (tr.map Prod.snd).count b + 1 := by
  induction l with
  | nil => intro cur tr _ hb _; exact absurd hb (List.not_mem_nil b)
  | cons a t ih =>
      intro cur tr hnd hb hcur
      have hnd' : t.Nodup := (List.nodup_cons.mp hnd).2
      rw [List.foldl_cons]
      rcases List.mem_cons.mp hb with hba | hbt
      · subst hba
        have hbt : b ∉ t := (List.nodup_cons.mp hnd).1
        rw [fireStep_pos eff hcur tr, fire_count_not_mem eff t _ _ b hbt]
        simp [List.count_append]
      · by_cases hmem : a ∈ cur
        · have hba : b ≠ a := fun h => (List.nodup_cons.mp hnd).1 (h ▸ hbt)
          rw [fireStep_pos eff hmem tr, ih _ _ hnd' hbt (hpres a cur hcur)]
          simp [List.count_append, hba]
        · rw [fireStep_neg eff hmem tr]
          exact ih _ _ hnd' hbt hcur

/-- Claim C8: in every call of Notifier.fire, (1) every binding live at the
start of the fire whose handler effects never remove it is invoked exactly
once, (2) a binding added during the fire (absent from the starting set) is
not invoked in that same fire, and (3) every invocation happens while the
invoked binding is in the current live set, so a binding removed mid-fire
is never invoked after its removal.  The snapshot is an arbitrary
duplicate-free enumeration of the starting binding set, matching
list(self._bindings) over the WeakSet. -/
theorem notifier_fire_snapshot_semantics
    (eff : ℕ → Finset ℕ → Finset ℕ) (snapshot : List ℕ) (s : Finset ℕ)
    (hnd : snapshot.Nodup) (hset : snapshot.toFinset = s) :
    (∀ b ∈ s, (∀ c t, b ∈ t → b ∈ eff c t) →
        ((Notifier.fire eff snapshot s).2.map Prod.snd).count b = 1)
    ∧ (∀ b, b ∉ s → b ∉ (Notifier.fire eff snapshot s).2.map Prod.snd)
    ∧ (∀ p ∈ (Notifier.fire eff snapshot s).2, p.2 ∈ p.1) := by
  refine ⟨?_, ?_, ?_⟩
  · intro b hb hpres
    have hbl : b ∈ snapshot := by
      rw [← hset] at hb; exact List.mem_toFinset.mp hb
    have := fire_count_mem eff b hpres snapshot s [] hnd hbl hb
    simpa [Notifier.fire] using this
  · intro b hb hmem
    have hbl : b ∉ snapshot := fun h => hb (hset ▸ List.mem_toFinset.mpr h)
    rcases fire_trace_snd_subset eff snapshot s [] b hmem with h | h
    · exact absurd h (List.not_mem_nil b)
    · exact hbl h
  · intro p hp
    refine fire_trace_mem_invariant eff snapshot s [] ?_ p hp
    intro q hq; exact absurd hq (List.not_mem_nil q)

/-- Witness for C8 at a concrete fire: two bindings, handlers leave the
binding set unchanged; binding 0 is invoked exactly once. -/
theorem notifier_fire_snapshot_semantics_witness :
    ((Notifier.fire (fun _ t => t) [0, 1] {0, 1}).2.map Prod.snd).count 0 = 1 :=
  (notifier_fire_snapshot_semantics (fun _ t => t) [0, 1] {0, 1}
    (by decide) (by decide)).1 0 (by decide) (fun _ _ h => h)

/-! ## DependencyCollection (reactive.py, lines 17-74)

A DependencyCollection holds a WeakKeyDictionary from notifier to the
binding Lifetime for that notifier, and a single trigger handler (None
after disposal).  Only the key set of the dictionary matters for the
claims; it is modelled as a Finset of notifier ids. -/

structure DependencyCollection where
  bindings : Finset ℕ
  hasHandler : Bool
  alive : Bool
deriving DecidableEq

/-- DependencyCollection.add_dependency: a no-op when the notifier is already
bound or the handler is gone; otherwise binds the handler and records the
binding. -/
def add_dependency (c : DependencyCollection) (n : ℕ) : DependencyCollection :=
  if n ∈ c.bindings then c
  else if c.hasHandler then { c with bindings := insert n c.bindings }
  else c

/-- DependencyCollection.remove_dependency: pops the binding for the
notifier; dropping the binding Lifetime releases the subscription. -/
def remove_dependency (c : DependencyCollection) (n : ℕ) : DependencyCollection :=
  { c with bindings := c.bindings.erase n }

/-- The finally block of DependencyCollection.listen_for_dependencies:
snapshot the currently bound notifiers, add every buffered dependency that
is not yet bound, then remove every previously bound dependency absent from
the buffer. -/
def reconcile (c : DependencyCollection) (buffer : Finset ℕ) : DependencyCollection :=
  ((c.bindings \ buffer).sort (· ≤ ·)).foldl remove_dependency
    (((buffer \ c.bindings).sort (· ≤ ·)).foldl add_dependency c)

lemma add_dependency_bindings (c : DependencyCollection) (n : ℕ)
    (hh : c.hasHandler = true) :
    (add_dependency c n).bindings = insert n c.bindings := by
  unfold add_dependency
  by_cases h : n ∈ c.bindings
  · simp [h, Finset.insert_eq_self.mpr h]
  · simp [h, hh]

lemma add_dependency_hasHandler (c : DependencyCollection) (n : ℕ) :
    (add_dependency c n).hasHandler = c.hasHandler := by
  unfold add_dependency
  by_cases h : n ∈ c.bindings <;> by_cases h2 : c.hasHandler <;> simp [h, h2]

lemma add_dependency_alive (c : DependencyCollection) (n : ℕ) :
    (add_dependency c n).alive = c.alive := by
  unfold add_dependency
  by_cases h : n ∈ c.bindings <;> by_cases h2 : c.hasHandler <;> simp [h, h2]

lemma foldl_add_dependency (l : List ℕ) :
    ∀ c : DependencyCollection, c.hasHandler = true →
      (l.foldl add_dependency c) =
        ⟨c.bindings ∪ l.toFinset, c.hasHandler, c.alive⟩ := by
  induction l with
  | nil =>
      intro c _
      cases c with
      | mk b h a => simp
  | cons x t ih =>
      intro c hh
      rw [List.foldl_cons,
        ih (add_dependency c x) (by rw [add_dependency_hasHandler]; exact hh)]
      rw [add_dependency_bindings c x hh, add_dependency_hasHandler,
        add_dependency_alive]
      congr 1
      rw [List.toFinset_cons]
      ext y
      simp only [Finset.mem_union, Finset.mem_insert]
      tauto

lemma foldl_remove_dependency (l : List ℕ) :
    ∀ c : DependencyCollection,
      (l.foldl remove_dependency c) =
        ⟨c.bindings \ l.toFinset, c.hasHandler, c.alive⟩ := by
  induction l with
  | nil =>
      intro c
      cases c with
      | mk b h a => simp
  | cons x t ih =>
      intro c
      rw [List.foldl_cons, ih (remove_dependency c x)]
      unfold remove_dependency
      congr 1
      rw [List.toFinset_cons]
      ext y
      simp only [Finset.mem_sdiff, Finset.mem_erase, Finset.mem_insert]
      tauto

lemma reconcile_eq (c : DependencyCollection) (buffer : Finset ℕ)
    (hh : c.hasHandler = true) :
    reconcile c buffer = ⟨buffer, c.hasHandler, c.alive⟩ := by
  unfold reconcile
  rw [foldl_add_dependency _ c hh]
  rw [foldl_remove_dependency]
  simp only [Finset.sort_toFinset]
  congr 1
  ext y
  simp only [Finset.mem_sdiff, Finset.mem_union]
  tauto

/-- The state of one tracked computation as seen by the finally block of
listen_for_dependencies: the contents of the pushed buffer at the moment
the body finished or raised, and the body's result. -/
structure TrackedComp (ε α : Type) where
  announced : Finset ℕ
  outcome : Except ε α

/-- DependencyCollection.listen_for_dependencies (reactive.py, lines 39-56):
push a fresh buffer on the module dependency-context stack, run the body
(which fills the buffer with comp.announced and ends with comp.outcome),
then — in the finally block, on success and on exception alike — pop the
frame and reconcile the collection against the buffer.  Returns the updated
collection, the restored stack and the propagated result. -/
def listen_for_dependencies {ε α : Type} (c : DependencyCollection)
    (stack : List (Finset ℕ)) (comp : TrackedComp ε α) :
    DependencyCollection × List (Finset ℕ) × Except ε α :=
  let pushed : List (Finset ℕ) := comp.announced :: stack
  let popped := pushed.tail
  (reconcile c comp.announced, popped, comp.outcome)

/-- Claim C2 counterexample: a collection subscribed to notifier 0 whose
tracked computation raises before announcing anything does NOT keep its
subscription set untouched — the finally block reconciles against the
empty buffer and unbinds notifier 0. -/
theorem listen_for_dependencies_error_counterexample :
    ((listen_for_dependencies (ε := Unit) (α := Unit)
        ⟨{0}, true, true⟩ [] ⟨∅, Except.error ()⟩).1).bindings ≠ ({0} : Finset ℕ) := by
  have h : (listen_for_dependencies (ε := Unit) (α := Unit)
      ⟨{0}, true, true⟩ [] ⟨∅, Except.error ()⟩).1 = reconcile ⟨{0}, true, true⟩ ∅ := rfl
  rw [h, reconcile_eq _ _ rfl]
  decide

/-- Claim C2 (amended): when the tracked computation raises, the tracking
frame is still popped (the stack is restored) and the exception propagates
to the caller, but reconciliation is NOT skipped: the finally block diffs
the partially filled buffer against the previous subscriptions, so the
collection ends up subscribed to exactly the dependencies announced before
the raise (dependencies not announced before the raise are unbound). -/
theorem listen_for_dependencies_error_unwind {ε α : Type}
    (c : DependencyCollection) (stack : List (Finset ℕ)) (ann : Finset ℕ) (e : ε)
    (hh : c.hasHandler = true) :
    listen_for_dependencies c stack (⟨ann, Except.error e⟩ : TrackedComp ε α) =
      (⟨ann, c.hasHandler, c.alive⟩, stack, Except.error e) := by
  simp only [listen_for_dependencies, List.tail_cons]
  rw [reconcile_eq c ann hh]

/-- Witness for C2 (amended) at concrete inputs: previous subscriptions {0},
announcements before the raise {3}; the frame is popped, the error
propagates, and the bindings become {3}. -/
theorem listen_for_dependencies_error_unwind_witness :
    listen_for_dependencies (ε := Unit) (α := Unit)
        ⟨{0}, true, true⟩ [{5}] ⟨{3}, Except.error ()⟩
      = (⟨{3}, true, true⟩, [{5}], Except.error ()) :=
  listen_for_dependencies_error_unwind ⟨{0}, true, true⟩ [{5}] {3} () rfl

/-! ## Watch cancellation and disposal (reactive.py, lines 58-74 and 88-137)

watchf wraps its loop in with dependency_collection(handler) as deps.
Cancelling the consumer closes the generator, which exits that context
manager.  Its finally block is only assert deps (a keep-alive), so the
scope exit itself does not dispose the collection; disposal happens when
DependencyCollection._dispose runs (explicitly, or as the GC-finalizer
backstop once the collection is unreachable). -/

/-- The finally block of the dependency_collection context manager
(reactive.py, lines 64-74): it only asserts the collection (keep-alive)
and returns; the collection is NOT disposed on scope exit. -/
def dependency_collection_exit (deps : DependencyCollection) : DependencyCollection :=
  deps

/-- A watch's dependency collection together with the notifier-side view:
the set of notifiers whose binding set still holds this watch's binding. -/
structure WatchSubscriptions where
  collection : DependencyCollection
  subscribed : Finset ℕ
deriving DecidableEq

/-- DependencyCollection._dispose (reactive.py, lines 58-61):
self._bindings.clear() drops the only strong reference to each binding
Lifetime, whose finalizer unbinds it from its notifier; the handler is
cleared and the collection marked disposed. -/
def disposeWatchCollection (w : WatchSubscriptions) : WatchSubscriptions :=
  { collection := ⟨∅, false, false⟩
    subscribed := w.subscribed \ w.collection.bindings }

/-- Whether firing notifier n still invokes this watch's trigger handler:
Notifier.fire only invokes handlers of bindings present in the notifier's
binding set. -/
def watchHandlerFires (w : WatchSubscriptions) (n : ℕ) : Bool :=
  n ∈ w.subscribed

/-- Claim C5 counterexample: cancelling the watch (exiting the
dependency_collection context) leaves the collection alive with its
subscription to notifier 0 still held — it is not disposed at that point,
contradicting the claim that cancellation itself disposes the collection
and leaves zero live subscriptions. -/
theorem watch_cancel_counterexample :
    (dependency_collection_exit ⟨{0}, true, true⟩).alive = true ∧
    (dependency_collection_exit ⟨{0}, true, true⟩).bindings ≠ (∅ : Finset ℕ) := by
  decide

/-- Claim C5 (amended): exiting the watch's dependency_collection scope does
not dispose the collection (its finally block is only a keep-alive
assert); the collection is disposed when DependencyCollection._dispose
runs — explicitly or via the GC-finalizer backstop once the cancelled
generator frame is collected.  Disposal then releases every subscription
the collection held: given the code invariant that the notifier-side
binding sets hold exactly the collection's recorded bindings, after
disposal zero live subscriptions remain and firing any notifier invokes no
handler of the cancelled watch. -/
theorem watch_dispose_releases_all (w : WatchSubscriptions)
    (hinv : w.subscribed = w.collection.bindings) :
    dependency_collection_exit w.collection = w.collection ∧
    (disposeWatchCollection w).collection.bindings = ∅ ∧
    (disposeWatchCollection w).collection.alive = false ∧
    (disposeWatchCollection w).subscribed = ∅ ∧
    ∀ n, watchHandlerFires (disposeWatchCollection w) n = false := by
  refine ⟨rfl, rfl, rfl, ?_, ?_⟩
  · unfold disposeWatchCollection
    simp [hinv]
  · intro n
    unfold watchHandlerFires disposeWatchCollection
    simp [hinv]

/-- Witness for C5 (amended) at a concrete watch: a collection tracking
notifiers 0 and 1; after disposal nothing remains subscribed and firing
notifier 0 invokes no handler of the watch. -/
theorem watch_dispose_releases_all_witness :
    (disposeWatchCollection ⟨⟨{0, 1}, true, true⟩, {0, 1}⟩).subscribed = ∅ ∧
    watchHandlerFires (disposeWatchCollection ⟨⟨{0, 1}, true, true⟩, {0, 1}⟩) 0 = false :=
  ⟨(watch_dispose_releases_all ⟨⟨{0, 1}, true, true⟩, {0, 1}⟩ rfl).2.2.2.1,
   (watch_dispose_releases_all ⟨⟨{0, 1}, true, true⟩, {0, 1}⟩ rfl).2.2.2.2 0⟩

/-! ## TypedProperty (typed_property.py, lines 15-81) -/

/-- A TypedProperty descriptor: its resolved name together with the
MRO-resolved _get implementation (mixins override _get; the base
implementation raises AttributeError). -/
structure TypedProperty (I V : Type) where
  name : String
  getImpl : I → Except String V

/-- The outcome of descriptor attribute access through TypedProperty: class
access returns the descriptor object itself, instance access produces the
value of _get or propagates the exception it raised. -/
inductive DescriptorAccess (I V : Type) where
  | descriptor (p : TypedProperty I V)
  | value (v : V)
  | raised (msg : String)

/-- TypedProperty dunder get (typed_property.py, lines 39-45): when the
access is through the owning class the instance argument is None and the
descriptor returns itself; otherwise it dispatches to self._get. -/
def TypedProperty.descriptorGet {I V : Type} (p : TypedProperty I V)
    (inst : Option I) : DescriptorAccess I V :=
  match inst with
  | none => DescriptorAccess.descriptor p
  | some i =>
      match p.getImpl i with
      | Except.ok v => DescriptorAccess.value v
      | Except.error m => DescriptorAccess.raised m

/-- Claim C10: for every property built on TypedProperty, access through the
owning class (instance None) returns the descriptor object itself — never a
value and never an error — while access through an instance dispatches to
the property's _get logic, returning its value or propagating its
exception. -/
theorem typed_property_descriptor_protocol {I V : Type} (p : TypedProperty I V) :
    p.descriptorGet none = DescriptorAccess.descriptor p
    ∧ (∀ v, p.descriptorGet none ≠ DescriptorAccess.value v)
    ∧ (∀ m, p.descriptorGet none ≠ DescriptorAccess.raised m)
    ∧ (∀ i v, p.getImpl i = Except.ok v →
        p.descriptorGet (some i) = DescriptorAccess.value v)
    ∧ (∀ i m, p.getImpl i = Except.error m →
        p.descriptorGet (some i) = DescriptorAccess.raised m) := by
  refine ⟨rfl, ?_, ?_, ?_, ?_⟩
  · intro v h; exact DescriptorAccess.noConfusion h
  · intro m h; exact DescriptorAccess.noConfusion h
  · intro i v h; simp [TypedProperty.descriptorGet, h]
  · intro i m h; simp [TypedProperty.descriptorGet, h]

/-- Witness for C10 at a concrete property whose _get returns 5: class
access yields the descriptor, instance access yields the value 5. -/
theorem typed_property_descriptor_protocol_witness :
    TypedProperty.descriptorGet ⟨"x", fun (_ : Unit) => Except.ok (5 : ℕ)⟩ none
        = DescriptorAccess.descriptor ⟨"x", fun _ => Except.ok 5⟩
    ∧ TypedProperty.descriptorGet ⟨"x", fun (_ : Unit) => Except.ok (5 : ℕ)⟩ (some ())
        = DescriptorAccess.value 5 :=
  ⟨(typed_property_descriptor_protocol ⟨"x", fun _ => Except.ok 5⟩).1,
   (typed_property_descriptor_protocol ⟨"x", fun _ => Except.ok 5⟩).2.2.2.1 () 5 rfl⟩

/-! ## watchp, string path (watch.py, lines 104-113)

watchp(instance, name) with a string looks the name up on type(instance)
with getattr — which raises AttributeError when the class has no such
attribute — then checks isinstance(prop, ReactivePropertyMixin), raising
ValueError(name is not a reactive property) when the attribute is not a
reactive property.  Only when both steps succeed is the asynchronous
stream created, so on either error no stream exists and nothing is ever
yielded. -/

/-- A class attribute as seen by getattr(cls, name), classified by the
isinstance(prop, ReactivePropertyMixin) test watchp performs. -/
inductive ClassAttr where
  | reactiveProperty
  | nonReactive
deriving DecidableEq

/-- The exceptions the string path of watchp can raise. -/
inductive WatchpError where
  | attributeError (name : String)
  | valueError (msg : String)
deriving DecidableEq

/-- A successfully created watch stream. -/
inductive WatchpOk where
  | stream
deriving DecidableEq

/-- getattr(type(instance), name) over the class attribute table. -/
def getattrCls (cls : List (String × ClassAttr)) (name : String) : Option ClassAttr :=
  (cls.find? (fun p => p.1 == name)).map Prod.snd

/-- The string path of watchp: getattr, the ReactivePropertyMixin check,
then stream creation. -/
def watchp_string (cls : List (String × ClassAttr)) (name : String) :
    Except WatchpError WatchpOk :=
  match getattrCls cls name with
  | none => Except.error (WatchpError.attributeError name)
  | some ClassAttr.reactiveProperty => Except.ok WatchpOk.stream
  | some ClassAttr.nonReactive =>
      Except.error (WatchpError.valueError (name ++ " is not a reactive property"))

/-- Claim C9 counterexample: watching by a name the class does not have at
all raises AttributeError from getattr, not the not-a-reactive-property
ValueError the claim promises for every unresolved name. -/
theorem watchp_missing_name_counterexample :
    watchp_string [] "nope" = Except.error (WatchpError.attributeError "nope")
    ∧ watchp_string [] "nope"
        ≠ Except.error (WatchpError.valueError ("nope is not a reactive property")) := by
  constructor
  · rfl
  · intro h
    exact WatchpError.noConfusion (Except.error.inj h)

/-- Claim C9 (amended): for every class table and name that does not resolve
to a reactive property, the watchp string path raises before any stream is
created — ValueError(name is not a reactive property) when the name is
bound to a non-reactive attribute, and AttributeError when the name is not
an attribute at all; in both cases no stream exists, so nothing is ever
yielded. -/
theorem watchp_string_error_before_yield (cls : List (String × ClassAttr))
    (name : String) (h : getattrCls cls name ≠ some ClassAttr.reactiveProperty) :
    watchp_string cls name =
      Except.error (match getattrCls cls name with
        | none => WatchpError.attributeError name
        | some _ => WatchpError.valueError (name ++ " is not a reactive property")) := by
  unfold watchp_string
  cases hc : getattrCls cls name with
  | none => rfl
  | some a =>
      cases a with
      | reactiveProperty => exact absurd hc h
      | nonReactive => rfl

/-- Witness for C9 (amended) at a concrete class: the name x is bound to a
non-reactive attribute, so the call raises the not-a-reactive-property
ValueError and never produces a stream. -/
theorem watchp_string_error_before_yield_witness :
    watchp_string [("x", ClassAttr.nonReactive)] "x" =
      Except.error (WatchpError.valueError ("x is not a reactive property")) :=
  watchp_string_error_before_yield [("x", ClassAttr.nonReactive)] "x" (by decide)

/-! ## ComputedProperty (computed_property.py)

ComputedProperty layers CachedPropertyMixin over ComputedValueMixin over
GetterMixin.  Per instance it holds an optional cached value
(_cache_values), and a DependencyCollection (_computed_dependencies,
created with the notifier trigger as its handler).  The user compute
function fcompute is modelled by the set of notifiers it announces on the
reactive.py dependency-context stack while tracked, together with its
outcome; computeCount counts its invocations. -/

/-- reactive.announce_dependency (reactive.py, lines 76-85): add the
notifier to the innermost frame of the reactive.py dependency-context
stack; do nothing when no frame is active. -/
def announce_dependency (n : ℕ) : List (Finset ℕ) → List (Finset ℕ)
  | [] => []
  | b :: rest => insert n b :: rest

/-- A computed property: what its compute function announces while tracked,
what it returns or raises, and the id of the property's own per-instance
notifier. -/
structure ComputedProp (V : Type) where
  computeAnnounced : Finset ℕ
  computeOutcome : Except String V
  ownNotifier : ℕ

/-- The per-instance state of a computed property, with a ghost counter of
compute-function invocations. -/
structure ComputedState (V : Type) where
  cache : Option V
  deps : DependencyCollection
  computeCount : ℕ

/-- ComputedProperty read: CachedPropertyMixin._get (computed_property.py,
lines 30-42) over ComputedValueMixin._get (lines 79-87).  On a cache hit,
announce the computed's own notifier on the reactive.py stack and return
the cached value without invoking user code.  On a miss, run fcompute
inside deps.listen_for_dependencies — reconciliation runs in its finally
block on success and exception alike — then cache the result; an exception
propagates before the cache assignment. -/
def readComputed {V : Type} (p : ComputedProp V) (s : ComputedState V)
    (stackR : List (Finset ℕ)) :
    Except String V × ComputedState V × List (Finset ℕ) :=
  match s.cache with
  | some v => (Except.ok v, s, announce_dependency p.ownNotifier stackR)
  | none =>
      match listen_for_dependencies s.deps stackR
          (⟨p.computeAnnounced, p.computeOutcome⟩ : TrackedComp String V) with
      | (deps2, stack2, Except.error m) =>
          (Except.error m,
            { cache := none, deps := deps2, computeCount := s.computeCount + 1 },
            stack2)
      | (deps2, stack2, Except.ok v) =>
          (Except.ok v,
            { cache := some v, deps := deps2, computeCount := s.computeCount + 1 },
            stack2)

/-- A sequence of consecutive reads of the computed property, collecting the
results. -/
def readsFrom {V : Type} (p : ComputedProp V) :
    ℕ → ComputedState V × List (Finset ℕ) →
      List (Except String V) × ComputedState V × List (Finset ℕ)
  | 0, (s, st) => ([], s, st)
  | n + 1, (s, st) =>
      let r := readComputed p s st
      let rest := readsFrom p n (r.2.1, r.2.2)
      (r.1 :: rest.1, rest.2)

lemma readComputed_cached {V : Type} (p : ComputedProp V) (s : ComputedState V)
    (stackR : List (Finset ℕ)) (v : V) (h : s.cache = some v) :
    readComputed p s stackR = (Except.ok v, s, announce_dependency p.ownNotifier stackR) := by
  unfold readComputed
  rw [h]

lemma readsFrom_cached {V : Type} (p : ComputedProp V) (v : V) :
    ∀ (n : ℕ) (s : ComputedState V) (st : List (Finset ℕ)), s.cache = some v →
      (readsFrom p n (s, st)).1 = List.replicate n (Except.ok v)
      ∧ (readsFrom p n (s, st)).2.1 = s := by
  intro n
  induction n with
  | zero => intro s st _; exact ⟨rfl, rfl⟩
  | succ k ih =>
      intro s st h
      have hr := readComputed_cached p s st v h
      constructor
      · show ((readComputed p s st).1 :: (readsFrom p k ((readComputed p s st).2.1,
          (readComputed p s st).2.2)).1) = _
        rw [hr]
        rw [List.replicate_succ]
        exact congrArg _ (ih s _ h).1
      · show (readsFrom p k ((readComputed p s st).2.1, (readComputed p s st).2.2)).2.1 = s
        rw [hr]
        exact (ih s _ h).2

/-- Claim C6: starting from a fresh (dirty) computed property, any sequence
of n+1 consecutive reads with no dependency change in between invokes the
user compute function exactly once: the first read computes and caches,
and every read returns the computed value, with the invocation counter
staying at 1. -/
theorem computed_no_redundant_recompute {V : Type} (p : ComputedProp V) (v : V)
    (hp : p.computeOutcome = Except.ok v) (n : ℕ) (stackR : List (Finset ℕ)) :
    (readsFrom p (n + 1) (⟨none, ⟨∅, true, true⟩, 0⟩, stackR)).1
        = List.replicate (n + 1) (Except.ok v)
    ∧ (readsFrom p (n + 1) (⟨none, ⟨∅, true, true⟩, 0⟩, stackR)).2.1.computeCount = 1
    ∧ (readsFrom p (n + 1) (⟨none, ⟨∅, true, true⟩, 0⟩, stackR)).2.1.cache = some v := by
  have hfirst : readComputed p ⟨none, ⟨∅, true, true⟩, 0⟩ stackR =
      (Except.ok v,
        ⟨some v, reconcile ⟨∅, true, true⟩ p.computeAnnounced, 1⟩, stackR) := by
    unfold readComputed listen_for_dependencies
    rw [hp]
    rfl
  have hcache : (⟨some v, reconcile ⟨∅, true, true⟩ p.computeAnnounced, 1⟩ :
      ComputedState V).cache = some v := rfl
  refine ⟨?_, ?_, ?_⟩
  · show ((readComputed p ⟨none, ⟨∅, true, true⟩, 0⟩ stackR).1 ::
      (readsFrom p n ((readComputed p ⟨none, ⟨∅, true, true⟩, 0⟩ stackR).2.1,
        (readComputed p ⟨none, ⟨∅, true, true⟩, 0⟩ stackR).2.2)).1) = _
    rw [hfirst, List.replicate_succ]
    exact congrArg _ (readsFrom_cached p v n _ stackR hcache).1
  · show (readsFrom p n ((readComputed p ⟨none, ⟨∅, true, true⟩, 0⟩ stackR).2.1,
        (readComputed p ⟨none, ⟨∅, true, true⟩, 0⟩ stackR).2.2)).2.1.computeCount = 1
    rw [hfirst]
    rw [(readsFrom_cached p v n _ stackR hcache).2]
  · show (readsFrom p n ((readComputed p ⟨none, ⟨∅, true, true⟩, 0⟩ stackR).2.1,
        (readComputed p ⟨none, ⟨∅, true, true⟩, 0⟩ stackR).2.2)).2.1.cache = some v
    rw [hfirst]
    rw [(readsFrom_cached p v n _ stackR hcache).2]

/-- Witness for C6 at a concrete computed property (compute returns 42,
announces notifier 0) read three times: all reads yield 42 and the compute
function ran exactly once. -/
theorem computed_no_redundant_recompute_witness :
    (readsFrom ⟨{0}, Except.ok 42, 7⟩ 3 (⟨none, ⟨∅, true, true⟩, 0⟩, [])).1
        = List.replicate 3 (Except.ok (42 : ℤ))
    ∧ (readsFrom (V := ℤ) ⟨{0}, Except.ok 42, 7⟩ 3
        (⟨none, ⟨∅, true, true⟩, 0⟩, [])).2.1.computeCount = 1 :=
  ⟨(computed_no_redundant_recompute ⟨{0}, Except.ok 42, 7⟩ 42 rfl 2 []).1,
   (computed_no_redundant_recompute ⟨{0}, Except.ok 42, 7⟩ 42 rfl 2 []).2.1⟩

/-- Claim C7: when the compute function raises during a read of a dirty
computed property, the exception propagates to the reader, no cached value
appears (the cache assignment is never reached, so the property stays
dirty), and the next read invokes the compute function again — it retries
rather than serving a stale or partial value. -/
theorem computed_raise_leaves_dirty {V : Type} (p : ComputedProp V) (m : String)
    (hp : p.computeOutcome = Except.error m) (s : ComputedState V)
    (hdirty : s.cache = none) (stackR : List (Finset ℕ)) :
    (readComputed p s stackR).1 = Except.error m
    ∧ (readComputed p s stackR).2.1.cache = none
    ∧ (readComputed p s stackR).2.1.computeCount = s.computeCount + 1
    ∧ (readComputed p (readComputed p s stackR).2.1 (readComputed p s stackR).2.2).1
        = Except.error m
    ∧ (readComputed p (readComputed p s stackR).2.1 (readComputed p s stackR).2.2).2.1.computeCount
        = s.computeCount + 2 := by
  have h1 : readComputed p s stackR =
      (Except.error m,
        ⟨none, reconcile s.deps p.computeAnnounced, s.computeCount + 1⟩, stackR) := by
    unfold readComputed listen_for_dependencies
    rw [hdirty, hp]
    rfl
  have h2 : readComputed p
      (⟨none, reconcile s.deps p.computeAnnounced, s.computeCount + 1⟩ : ComputedState V)
      stackR =
      (Except.error m,
        ⟨none, reconcile (reconcile s.deps p.computeAnnounced) p.computeAnnounced,
          s.computeCount + 2⟩, stackR) := by
    unfold readComputed listen_for_dependencies
    rw [hp]
    rfl
  rw [h1]
  exact ⟨rfl, rfl, rfl, by rw [h2], by rw [h2]⟩

/-- Witness for C7 at a concrete computed property whose compute raises:
the first read propagates the error and leaves no cache, the second read
retries the computation. -/
theorem computed_raise_leaves_dirty_witness :
    (readComputed (V := ℤ) ⟨∅, Except.error "boom", 0⟩ ⟨none, ⟨∅, true, true⟩, 0⟩ []).1
        = Except.error "boom"
    ∧ (readComputed (V := ℤ) ⟨∅, Except.error "boom", 0⟩
        ⟨none, ⟨∅, true, true⟩, 0⟩ []).2.1.cache = none :=
  ⟨(computed_raise_leaves_dirty ⟨∅, Except.error "boom", 0⟩ "boom" rfl
      ⟨none, ⟨∅, true, true⟩, 0⟩ rfl []).1,
   (computed_raise_leaves_dirty ⟨∅, Except.error "boom", 0⟩ "boom" rfl
      ⟨none, ⟨∅, true, true⟩, 0⟩ rfl []).2.1⟩

/-! ## Setting a ComputedProperty (claim C3)

In the MRO of ComputedProperty the descriptor set resolves to
CachedPropertyMixin._set (computed_property.py, lines 44-56), not to the
raising TypedProperty._set (typed_property.py, lines 62-66). -/

/-- CachedPropertyMixin._set: if the cache holds a value equal to the one
assigned, return silently; otherwise store the value in the cache and call
_fire_notifier, which first deletes the cache entry (lines 23-28) and then
fires the per-instance notifier.  The Bool records whether the notifier
fired.  This method never raises. -/
def computedSet {V : Type} [DecidableEq V] (s : ComputedState V) (v : V) :
    Except String (ComputedState V × Bool) :=
  match s.cache with
  | some c =>
      if c = v then Except.ok (s, false)
      else Except.ok ({ s with cache := none }, true)
  | none => Except.ok ({ s with cache := none }, true)

/-- TypedProperty._set, the behaviour claim C3 describes: raise
AttributeError.  ComputedProperty never reaches it because
CachedPropertyMixin._set overrides it in the MRO. -/
def typedPropertySet {V : Type} (_v : V) : Except String (ComputedState V × Bool) :=
  Except.error "Property does not support setting a value."

/-- Claim C3 fails on the code: writing 100 to a computed property whose
cache holds 10 raises nothing — CachedPropertyMixin._set accepts the
write, ends with the cache cleared (stored, then deleted by
_fire_notifier) and the notifier fired, unlike the raising
TypedProperty._set that the claim (and the repository test
test_set_computed_property_then_raises_error) expects. -/
theorem computed_set_not_rejected :
    computedSet (V := ℤ) ⟨some 10, ⟨∅, true, true⟩, 1⟩ 100
        = Except.ok (⟨none, ⟨∅, true, true⟩, 1⟩, true)
    ∧ computedSet (V := ℤ) ⟨some 10, ⟨∅, true, true⟩, 1⟩ 100
        ≠ typedPropertySet 100 := by
  constructor
  · rfl
  · intro h
    exact Except.noConfusion h

/-! ## ReactivePropertyMixin._get and container values (claim C4) -/

/-- A reactive property whose stored value is an observable container: the
property's lazily created per-instance notifier, and the on_change
notifier of the stored container value (a ReactiveList,
reactive_list.py, lines 14-20). -/
structure ContainerValuedProperty where
  propNotifier : ℕ
  valueOnChange : ℕ

/-- ReactivePropertyMixin._get (reactive_property.py, lines 159-169):
_announce_dependency adds only the property's own per-instance notifier to
the innermost frame of the reactive_property.py dependency-context stack,
then the underlying accessor returns the stored value.  The value is never
inspected for a change-notification capability (no PChangeNotifier check
exists anywhere in the read path). -/
def reactive_property_get (p : ContainerValuedProperty)
    (stackRP : List (Finset ℕ)) : ℕ × List (Finset ℕ) :=
  (p.valueOnChange, announce_dependency p.propNotifier stackRP)

/-- Claim C4 fails on the code: a tracked read of a reactive property
(per-instance notifier 0) whose value is a ReactiveList with on_change
notifier 1 announces only notifier 0 to the active frame; the value's own
notifier 1 is not announced, so mutations of the container do not trigger
the dependent. -/
theorem reactive_get_announces_only_property_notifier :
    (reactive_property_get ⟨0, 1⟩ [∅]).2 = [{0}]
    ∧ (reactive_property_get ⟨0, 1⟩ [∅]).1 = 1
    ∧ (1 : ℕ) ∉ ({0} : Finset ℕ) := by
  refine ⟨rfl, rfl, by decide⟩

/-! ## The a / b scenario (claim C1)

One instance with a reactive value property a (rxvalue, default factory
returning 1; value_property.py) and a computed property b with compute
a * 10 (computed_property.py).  The world has two notifiers — id 0 for
a's per-instance notifier, id 1 for b's — and two handlers — id 0 for b's
trigger (the lambda from ReactivePropertyMixin._get_notifier_trigger that
calls CachedPropertyMixin._fire_notifier) and id 1 for a watch's
changed-event setter (reactive.py, line 129).  Crucially, the source has
TWO distinct module-level dependency-context stacks: reactive_property.py
line 18 (used by ReactivePropertyMixin._announce_dependency) and
reactive.py line 14 (used by DependencyCollection.listen_for_dependencies
and reactive.announce_dependency); the model carries both. -/

structure ScenarioState where
  aValue : Option ℤ
  aBindings : List ℕ
  bBindings : List ℕ
  bCache : Option ℤ
  bDeps : Finset ℕ
  wDeps : Finset ℕ
  computeCount : ℕ
  changed : Bool
  stackR : List (Finset ℕ)
  stackRP : List (Finset ℕ)

/-- The initial state: no value stored for a, empty notifiers, b dirty with
a fresh dependency collection, the watch not yet signalled, both
dependency-context stacks empty. -/
def scInit : ScenarioState :=
  { aValue := none, aBindings := [], bBindings := [], bCache := none,
    bDeps := ∅, wDeps := ∅, computeCount := 0, changed := false,
    stackR := [], stackRP := [] }

/-- Reading a: ReactivePropertyMixin._get announces a's notifier (id 0) on
the reactive_property.py stack, then ValueProperty._get returns the stored
value or lazily stores and returns the default 1. -/
def scReadA (s : ScenarioState) : ℤ × ScenarioState :=
  let s1 := { s with stackRP := announce_dependency 0 s.stackRP }
  match s1.aValue with
  | some v => (v, s1)
  | none => (1, { s1 with aValue := some 1 })

/-- Notifier.fire in this closed world.
Firing a notifier snapshots its binding list and dispatches each handler:
handler 1 (the watch setter) sets the changed event; handler 0 (b's
trigger) runs CachedPropertyMixin._fire_notifier, clearing b's cache and
firing b's notifier in turn.  The fuel bounds the nesting depth of
re-entrant fires; no trace below comes near exhausting it (a cycle would
make the Python recurse without bound, per the design's stated non-goal of
cycle detection).  No handler in this world mutates the binding lists, so
the membership re-check inside fire never filters anything. -/
def scFire : ℕ → ℕ → ScenarioState → ScenarioState
  | 0, _, s => s
  | fuel + 1, n, s =>
      (if n = 0 then s.aBindings else s.bBindings).foldl
        (fun st h =>
          if h = 1 then { st with changed := true }
          else if h = 0 then scFire fuel 1 { st with bCache := none }
          else st) s

/-- One notifier-side binding update from the reconciliation loops of
listen_for_dependencies, specialised to this two-notifier world: for a
collection previously bound to keys whose new buffer is buffer, notifier n
gains a binding of handler h when newly read and loses it when no longer
read. -/
def updateNotifierBindings (h : ℕ) (keys buffer : Finset ℕ) (n : ℕ)
    (lst : List ℕ) : List ℕ :=
  if n ∈ buffer ∧ n ∉ keys then lst ++ [h]
  else if n ∈ keys ∧ n ∉ buffer then lst.erase h
  else lst

/-- The notifier-side effects of reconciling a collection with trigger
handler h from keys to buffer: add_dependency binds h on newly read
notifiers, remove_dependency drops the binding from notifiers no longer
read. -/
def scReconcileBindings (h : ℕ) (keys buffer : Finset ℕ) (s : ScenarioState) :
    ScenarioState :=
  { s with
    aBindings := updateNotifierBindings h keys buffer 0 s.aBindings
    bBindings := updateNotifierBindings h keys buffer 1 s.bBindings }

/-- Setting a: ReactiveValueProperty._set (value_property.py, lines 37-41)
first reads the current value (announcing on the — at this point empty —
reactive_property.py stack and lazily storing the default), skips the
write when the value is unchanged, and otherwise stores the new value and
fires a's per-instance notifier. -/
def scSetA (fuel : ℕ) (v : ℤ) (s : ScenarioState) : ScenarioState :=
  let r := scReadA s
  if r.1 = v then r.2
  else scFire fuel 0 { r.2 with aValue := some v }

/-- Reading b: CachedPropertyMixin._get (computed_property.py, lines 30-42).
On a cache hit, reactive.announce_dependency puts b's notifier on the
reactive.py stack and the cached value is returned.  On a miss,
ComputedValueMixin._get (lines 79-87) pushes a fresh frame on the
reactive.py stack, runs fcompute = a * 10 — whose read of a announces on
the OTHER stack (reactive_property.py), leaving the pushed frame empty —
pops the frame, reconciles b's collection (trigger handler 0) against it,
and finally the result is cached.  Nothing is announced to the caller's
frame on this path. -/
def scReadB (s : ScenarioState) : ℤ × ScenarioState :=
  match s.bCache with
  | some v => (v, { s with stackR := announce_dependency 1 s.stackR })
  | none =>
      let s1 := { s with stackR := (∅ : Finset ℕ) :: s.stackR }
      let r := scReadA s1
      let s2 := r.2
      let buffer := s2.stackR.headD ∅
      let s3 := { s2 with stackR := s2.stackR.tail }
      let s4 := scReconcileBindings 0 s3.bDeps buffer s3
      let s5 := { s4 with bDeps := buffer, computeCount := s4.computeCount + 1 }
      (r.1 * 10, { s5 with bCache := some (r.1 * 10) })

/-- One iteration of the watchf loop body (reactive.py, lines 130-137):
run the read of b inside the watch collection's listen_for_dependencies
(a fresh frame on the reactive.py stack), reconcile the watch collection
(trigger handler 1, the changed-event setter) against what was announced,
and yield the value.  The loop then suspends on changed.wait() and only
resumes once changed becomes true. -/
def scWatchIteration (s : ScenarioState) : ℤ × ScenarioState :=
  let s1 := { s with stackR := (∅ : Finset ℕ) :: s.stackR }
  let r := scReadB s1
  let s2 := r.2
  let buffer := s2.stackR.headD ∅
  let s3 := { s2 with stackR := s2.stackR.tail }
  let s4 := scReconcileBindings 1 s3.wDeps buffer s3
  (r.1, { s4 with wDeps := buffer })

/-- Claim C1 fails on the code.  The trace reads b (10, one computation),
sets a to 2, and reads b again: the second read still returns the stale 10
from the cache with the compute function never re-invoked, because the
compute's read of a announced on the reactive_property.py stack while b's
dependency collection was listening on reactive.py's separate stack, so b
never subscribed to a and a's write fired an empty notifier.  A watch on b
started before the write yields 10 and is never woken (changed stays
false), so it never yields 20. -/
theorem scenario_c1_code_eval :
    (scReadB scInit).1 = 10
    ∧ (scReadB scInit).2.computeCount = 1
    ∧ (scReadB scInit).2.bDeps = ∅
    ∧ (scSetA 9 2 (scReadB scInit).2).aValue = some 2
    ∧ (scSetA 9 2 (scReadB scInit).2).aBindings = []
    ∧ (scReadB (scSetA 9 2 (scReadB scInit).2)).1 = 10
    ∧ (scReadB (scSetA 9 2 (scReadB scInit).2)).2.computeCount = 1
    ∧ (scWatchIteration scInit).1 = 10
    ∧ (scSetA 9 2 (scWatchIteration scInit).2).changed = false := by
  decide

end Rxprop
